import Mathlib

/-!
Verification development for the payment edge function and call-matching
service in `supabase/functions/razorpay-payments/index.ts`.

The first section embeds SHA-256 and HMAC-SHA256 (with lowercase hex
output), the primitive `verify_payment` calls through
`createHmac("sha256", secret).update(body).digest("hex")`.  Machine words
are `Nat` reduced mod `2 ^ 32` explicitly.
-/

def w32 (x : Nat) : Nat := x % 4294967296

def rotr32 (n x : Nat) : Nat := w32 (x / 2 ^ n + x % 2 ^ n * 2 ^ (32 - n))

def shr32 (n x : Nat) : Nat := x / 2 ^ n

def add32 (x y : Nat) : Nat := w32 (x + y)

def not32 (x : Nat) : Nat := 4294967295 ^^^ x

def bigS0 (x : Nat) : Nat := rotr32 2 x ^^^ rotr32 13 x ^^^ rotr32 22 x

def bigS1 (x : Nat) : Nat := rotr32 6 x ^^^ rotr32 11 x ^^^ rotr32 25 x

def smallS0 (x : Nat) : Nat := rotr32 7 x ^^^ rotr32 18 x ^^^ shr32 3 x

def smallS1 (x : Nat) : Nat := rotr32 17 x ^^^ rotr32 19 x ^^^ shr32 10 x

def chOp (e f g : Nat) : Nat := (e &&& f) ^^^ (not32 e &&& g)

def majOp (a b c : Nat) : Nat := (a &&& b) ^^^ (a &&& c) ^^^ (b &&& c)

/-- The eight 32-bit words of a SHA-256 state. -/
structure Hash8 where
  h0 : Nat
  h1 : Nat
  h2 : Nat
  h3 : Nat
  h4 : Nat
  h5 : Nat
  h6 : Nat
  h7 : Nat
deriving Repr, DecidableEq

def sha256Init : Hash8 :=
  ⟨1779033703, 3144134277, 1013904242, 2773480762,
   1359893119, 2600822924, 528734635, 1541459225⟩

def sha256K : List Nat :=
  [1116352408, 1899447441, 3049323471, 3921009573,
   961987163, 1508970993, 2453635748, 2870763221,
   3624381080, 310598401, 607225278, 1426881987,
   1925078388, 2162078206, 2614888103, 3248222580,
   3835390401, 4022224774, 264347078, 604807628,
   770255983, 1249150122, 1555081692, 1996064986,
   2554220882, 2821834349, 2952996808, 3210313671,
   3336571891, 3584528711, 113926993, 338241895,
   666307205, 773529912, 1294757372, 1396182291,
   1695183700, 1986661051, 2177026350, 2456956037,
   2730485921, 2820302411, 3259730800, 3345764771,
   3516065817, 3600352804, 4094571909, 275423344,
   430227734, 506948616, 659060556, 883997877,
   958139571, 1322822218, 1537002063, 1747873779,
   1955562222, 2024104815, 2227730452, 2361852424,
   2428436474, 2756734187, 3204031479, 3329325298]

def sha256Round (st : Hash8) (k w : Nat) : Hash8 :=
  let t1 := add32 (add32 (add32 st.h7 (bigS1 st.h4)) (add32 (chOp st.h4 st.h5 st.h6) k)) w
  let t2 := add32 (bigS0 st.h0) (majOp st.h0 st.h1 st.h2)
  ⟨add32 t1 t2, st.h0, st.h1, st.h2, add32 st.h3 t1, st.h4, st.h5, st.h6⟩

def sha256Rounds : Hash8 → List (Nat × Nat) → Hash8
  | st, [] => st
  | st, (k, w) :: rest => sha256Rounds (sha256Round st k w) rest

def addHash (x y : Hash8) : Hash8 :=
  ⟨add32 x.h0 y.h0, add32 x.h1 y.h1, add32 x.h2 y.h2, add32 x.h3 y.h3,
   add32 x.h4 y.h4, add32 x.h5 y.h5, add32 x.h6 y.h6, add32 x.h7 y.h7⟩

/-- Big-endian 32-bit words from a byte list. -/
def toWords32 : List Nat → List Nat
  | b0 :: b1 :: b2 :: b3 :: rest => (((b0 * 256 + b1) * 256 + b2) * 256 + b3) :: toWords32 rest
  | _ => []

/-- Message-schedule extension; `acc` holds the words produced so far,
most recent first. -/
def extendW : Nat → List Nat → List Nat
  | 0, acc => acc
  | n + 1, acc =>
      let nw := add32 (add32 (smallS1 (acc.getD 1 0)) (acc.getD 6 0))
                      (add32 (smallS0 (acc.getD 14 0)) (acc.getD 15 0))
      extendW n (nw :: acc)

def sha256Schedule (ws : List Nat) : List Nat := (extendW 48 ws.reverse).reverse

def sha256Chunk (st : Hash8) (chunk : List Nat) : Hash8 :=
  addHash st (sha256Rounds st (sha256K.zip (sha256Schedule (toWords32 chunk))))

def chunksOf64 : Nat → List Nat → List (List Nat)
  | 0, _ => []
  | n + 1, l => l.take 64 :: chunksOf64 n (l.drop 64)

/-- SHA-256 padding: `0x80`, zeros to 56 mod 64, then the bit length as
eight big-endian bytes. -/
def padBytes (msg : List Nat) : List Nat :=
  let len := msg.length
  let bits := len * 8
  msg ++ 0x80 :: List.replicate ((119 - len % 64) % 64) 0 ++
    [bits / 2 ^ 56 % 256, bits / 2 ^ 48 % 256, bits / 2 ^ 40 % 256, bits / 2 ^ 32 % 256,
     bits / 2 ^ 24 % 256, bits / 2 ^ 16 % 256, bits / 2 ^ 8 % 256, bits % 256]

def wordBytes (w : Nat) : List Nat :=
  [w / 2 ^ 24 % 256, w / 2 ^ 16 % 256, w / 2 ^ 8 % 256, w % 256]

def Hash8.toBytes (st : Hash8) : List Nat :=
  wordBytes st.h0 ++ wordBytes st.h1 ++ wordBytes st.h2 ++ wordBytes st.h3 ++
  wordBytes st.h4 ++ wordBytes st.h5 ++ wordBytes st.h6 ++ wordBytes st.h7

def sha256Bytes (msg : List Nat) : List Nat :=
  let padded := padBytes msg
  ((chunksOf64 (padded.length / 64) padded).foldl sha256Chunk sha256Init).toBytes

def hexChar (n : Nat) : Char :=
  if n < 10 then Char.ofNat (48 + n) else Char.ofNat (87 + n)

def byteHex (b : Nat) : List Char := [hexChar (b / 16), hexChar (b % 16)]

/-- Lowercase hex rendering of a byte list. -/
def bytesToHex (bs : List Nat) : String := String.mk (bs.flatMap byteHex)

/-- UTF-8 encoding of one character. -/
def utf8Bytes (c : Char) : List Nat :=
  let n := c.toNat
  if n < 128 then [n]
  else if n < 2048 then [192 + n / 64, 128 + n % 64]
  else if n < 65536 then [224 + n / 4096, 128 + n / 64 % 64, 128 + n % 64]
  else [240 + n / 262144, 128 + n / 4096 % 64, 128 + n / 64 % 64, 128 + n % 64]

def strBytes (s : String) : List Nat := s.data.flatMap utf8Bytes

/-- HMAC-SHA256 over byte lists (block size 64). -/
def hmacSha256 (key msg : List Nat) : List Nat :=
  let k0 := if 64 < key.length then sha256Bytes key else key
  let kpad := k0 ++ List.replicate (64 - k0.length) 0
  let inner := sha256Bytes (kpad.map (fun b => b ^^^ 0x36) ++ msg)
  sha256Bytes (kpad.map (fun b => b ^^^ 0x5c) ++ inner)

/-- `createHmac("sha256", secret).update(body).digest("hex")`. -/
def hmacSha256Hex (secret body : String) : String :=
  bytesToHex (hmacSha256 (strBytes secret) (strBytes body))

/-!
## Call matching service (`CallMatchingService`)

The Firestore collection `matchingRequests` is modelled as a list of
`MatchingRequest` documents, `calls` as a list of `CallRecord` documents.
Fresh `addDoc` document ids are drawn from a counter in the service state.
Timestamps are integers (milliseconds).
-/

inductive Gender
  | male
  | female
  | other
deriving Repr, DecidableEq

inductive GenderPref
  | anyone
  | men
  | women
deriving Repr, DecidableEq

inductive CallType
  | video
  | voice
deriving Repr, DecidableEq

inductive TicketStatus
  | waiting
  | matched
  | cancelled
deriving Repr, DecidableEq

structure MatchingRequest where
  id : String
  userId : String
  userGender : Gender
  preferredGender : GenderPref
  isPremium : Bool
  callType : CallType
  status : TicketStatus
  createdAt : Int
  matchedWith : Option String
  callId : Option String
deriving Repr, DecidableEq

inductive CallStatus
  | waiting
  | connecting
  | connected
  | ended
deriving Repr, DecidableEq

structure CallRecord where
  id : String
  callerId : String
  receiverId : Option String
  status : CallStatus
  createdAt : Int
  callType : CallType
deriving Repr, DecidableEq

structure MatchState where
  tickets : List MatchingRequest
  calls : List CallRecord
  nextDocId : Nat
  now : Int
deriving Repr, DecidableEq

def freshDocId (n : Nat) : String := "doc_" ++ toString n

/-- JavaScript `a || b` for an optional string: `undefined` and the empty
string both fall through to `b`. -/
def jsOrElse (a : Option String) (b : String) : String :=
  match a with
  | some s => if s = "" then b else s
  | none => b

def wouldAcceptGender (preference : GenderPref) (isPremium : Bool)
    (targetGender : Gender) : Bool :=
  if !isPremium then true
  else
    match preference with
    | GenderPref.men => targetGender == Gender.male
    | GenderPref.women => targetGender == Gender.female
    | GenderPref.anyone => true

def isCompatibleMatch (existingRequest : MatchingRequest) (newUserGender : Gender)
    (newUserPreference : GenderPref) (newUserIsPremium : Bool) : Bool :=
  wouldAcceptGender existingRequest.preferredGender existingRequest.isPremium newUserGender &&
  wouldAcceptGender newUserPreference newUserIsPremium existingRequest.userGender

def createdAtLE (a b : MatchingRequest) : Prop := a.createdAt ≤ b.createdAt

instance : DecidableRel createdAtLE :=
  fun a b => inferInstanceAs (Decidable (a.createdAt ≤ b.createdAt))

instance : IsTotal MatchingRequest createdAtLE :=
  ⟨fun a b => Int.le_total a.createdAt b.createdAt⟩

instance : IsTrans MatchingRequest createdAtLE :=
  ⟨fun _ _ _ hab hbc => le_trans hab hbc⟩

/-- The Firestore query in `findExistingMatch`: `status == waiting`,
`callType == callType`, `orderBy createdAt asc`, `limit 10`. -/
def matchQueryDocs (db : List MatchingRequest) (callType : CallType) :
    List MatchingRequest :=
  ((db.filter (fun r => r.status == TicketStatus.waiting && r.callType == callType)).insertionSort
    createdAtLE).take 10

/-- The `for` loop over the query snapshot in `findExistingMatch`. -/
def findFirstCompatible (newUserGender : Gender) (newUserPreference : GenderPref)
    (newUserIsPremium : Bool) : List MatchingRequest → Option MatchingRequest
  | [] => none
  | r :: rest =>
      if isCompatibleMatch r newUserGender newUserPreference newUserIsPremium then some r
      else findFirstCompatible newUserGender newUserPreference newUserIsPremium rest

def findExistingMatch (db : List MatchingRequest) (userGender : Gender)
    (preferredGender : GenderPref) (isPremium : Bool) (callType : CallType) :
    Option MatchingRequest :=
  findFirstCompatible userGender preferredGender isPremium (matchQueryDocs db callType)

/-- `joinMatch`: adds a call document (`callerId` and `receiverId` both the
joiner, status `connecting`, `callType` the literal `'video'`) and updates
the matching request to `matched`, linking the new call document id. -/
def joinMatch (st : MatchState) (matchingRequestId : String) (userId : String) :
    MatchState :=
  let callDocId := freshDocId st.nextDocId
  { st with
    calls := st.calls ++
      [{ id := callDocId
         callerId := userId
         receiverId := some userId
         status := CallStatus.connecting
         createdAt := st.now
         callType := CallType.video }]
    tickets := st.tickets.map (fun t =>
      if t.id == matchingRequestId then
        { t with
          status := TicketStatus.matched
          matchedWith := some userId
          callId := some callDocId }
      else t)
    nextDocId := st.nextDocId + 1 }

/-- `startMatching`: join the first compatible waiting ticket, returning
`existingMatch.callId || existingMatch.id` from the pre-join snapshot;
otherwise create a fresh waiting ticket and return its id. -/
def startMatching (st : MatchState) (userId : String) (userGender : Gender)
    (preferredGender : GenderPref) (isPremium : Bool) (callType : CallType) :
    MatchState × String :=
  match findExistingMatch st.tickets userGender preferredGender isPremium callType with
  | some existingMatch =>
      (joinMatch st existingMatch.id userId, jsOrElse existingMatch.callId existingMatch.id)
  | none =>
      let ticketId := freshDocId st.nextDocId
      ({ st with
         tickets := st.tickets ++
           [{ id := ticketId
              userId := userId
              userGender := userGender
              preferredGender := preferredGender
              isPremium := isPremium
              callType := callType
              status := TicketStatus.waiting
              createdAt := st.now
              matchedWith := none
              callId := none }]
         nextDocId := st.nextDocId + 1 }, ticketId)

def fiveMinutesMs : Int := 5 * 60 * 1000

/-- `cleanupOldRequests` run at time `now`: deletes the documents matched by
the query `createdAt < now - 5 minutes` and `status == waiting`; the
remaining collection is returned. -/
def cleanupOldRequests (db : List MatchingRequest) (now : Int) :
    List MatchingRequest :=
  db.filter (fun t =>
    !(decide (t.createdAt < now - fiveMinutesMs) && (t.status == TicketStatus.waiting)))

/-!
## Payment edge function (`create_order` / `verify_payment`)

The `orders` table is a list of rows; the Razorpay gateway is an oracle
function from the request this code sends to the order it returns (`none`
modelling a non-ok response), and database-insert success is a flag.
-/

def RAZORPAY_KEY_ID : String := "rzp_test_WQBAQbslF30m1w"

structure CreateOrderPayload where
  amount : Nat
  currency : Option String
  product_type : String
  product_details : String
  user_id : String
deriving Repr, DecidableEq

structure GatewayOrderRequest where
  amount : Nat
  currency : String
  receipt : String
deriving Repr, DecidableEq

structure GatewayOrder where
  id : String
  amount : Nat
  currency : String
deriving Repr, DecidableEq

structure OrderRow where
  user_id : String
  razorpay_order_id : String
  amount : Nat
  currency : String
  status : String
  product_type : String
  product_details : String
  razorpay_payment_id : Option String
  razorpay_signature : Option String
deriving Repr, DecidableEq

structure CreateOrderResponse where
  success : Bool
  order_id : String
  amount : Nat
  currency : String
  key_id : String
deriving Repr, DecidableEq

structure OrderState where
  orders : List OrderRow
deriving Repr, DecidableEq

/-- The body this code POSTs to `api.razorpay.com/v1/orders`: the amount
converted to paise, `currency || 'INR'`, and a receipt tag. -/
def gatewayOrderRequest (p : CreateOrderPayload) (now : Int) : GatewayOrderRequest :=
  { amount := p.amount * 100
    currency := jsOrElse p.currency "INR"
    receipt := "receipt_" ++ toString now }

/-- The row inserted into `orders`: original (major-unit) amount, status
`created`, the gateway's order id. -/
def localOrderRow (p : CreateOrderPayload) (razorpayOrder : GatewayOrder) : OrderRow :=
  { user_id := p.user_id
    razorpay_order_id := razorpayOrder.id
    amount := p.amount
    currency := jsOrElse p.currency "INR"
    status := "created"
    product_type := p.product_type
    product_details := p.product_details
    razorpay_payment_id := none
    razorpay_signature := none }

def createOrderResponse (razorpayOrder : GatewayOrder) : CreateOrderResponse :=
  { success := true
    order_id := razorpayOrder.id
    amount := razorpayOrder.amount
    currency := razorpayOrder.currency
    key_id := RAZORPAY_KEY_ID }

def create_order (st : OrderState) (p : CreateOrderPayload)
    (gateway : GatewayOrderRequest → Option GatewayOrder) (dbOk : Bool) (now : Int) :
    Except String CreateOrderResponse × OrderState :=
  match gateway (gatewayOrderRequest p now) with
  | none => (Except.error "Failed to create Razorpay order", st)
  | some razorpayOrder =>
      if dbOk then
        (Except.ok (createOrderResponse razorpayOrder),
         { orders := st.orders ++ [localOrderRow p razorpayOrder] })
      else (Except.error "Failed to store order in database", st)

structure VerifyPaymentPayload where
  razorpay_order_id : String
  razorpay_payment_id : String
  razorpay_signature : String
  user_id : String
deriving Repr, DecidableEq

/-- The `update(...)` applied to a matched order row. -/
def paidRow (o : OrderRow) (p : VerifyPaymentPayload) : OrderRow :=
  { o with
    razorpay_payment_id := some p.razorpay_payment_id
    razorpay_signature := some p.razorpay_signature
    status := "paid" }

/-- The two `.eq` filters of the update. -/
def orderRowMatches (p : VerifyPaymentPayload) (o : OrderRow) : Bool :=
  o.razorpay_order_id == p.razorpay_order_id && o.user_id == p.user_id

/-- `verify_payment`: recompute the HMAC of `order_id|payment_id`, throw on
mismatch before touching the database, otherwise update the matched row to
`paid` (`.single()` demands exactly one matched row; PostgREST rolls the
write back when that fails). -/
def verify_payment (st : OrderState) (p : VerifyPaymentPayload) (secret : String) :
    Except String OrderRow × OrderState :=
  let body := p.razorpay_order_id ++ "|" ++ p.razorpay_payment_id
  let expectedSignature := hmacSha256Hex secret body
  if expectedSignature ≠ p.razorpay_signature then
    (Except.error "Invalid payment signature", st)
  else
    match st.orders.filter (orderRowMatches p) with
    | [o] =>
        (Except.ok (paidRow o p),
         { orders := st.orders.map (fun q => if orderRowMatches p q then paidRow q p else q) })
    | _ => (Except.error "Failed to update order status", st)

/-!
## Theorems
-/

theorem findFirstCompatible_eq_find? (g : Gender) (p : GenderPref) (prem : Bool) :
    ∀ l : List MatchingRequest,
      findFirstCompatible g p prem l = l.find? (fun r => isCompatibleMatch r g p prem)
  | [] => rfl
  | r :: rest => by
      cases h : isCompatibleMatch r g p prem <;>
        simp [findFirstCompatible, List.find?, h, findFirstCompatible_eq_find? g p prem rest]

/-- Claim C4: a non-premium ticket accepts every target gender under every
preference. -/
theorem wouldAcceptGender_nonpremium (preference : GenderPref) (targetGender : Gender) :
    wouldAcceptGender preference false targetGender = true := rfl

/-- Claim C5: a premium ticket with preference `men` accepts exactly `male`
targets, with `women` exactly `female` targets, and with `anyone` every
target. -/
theorem wouldAcceptGender_premium (targetGender : Gender) :
    (wouldAcceptGender GenderPref.men true targetGender = true ↔ targetGender = Gender.male)
    ∧ (wouldAcceptGender GenderPref.women true targetGender = true ↔ targetGender = Gender.female)
    ∧ wouldAcceptGender GenderPref.anyone true targetGender = true := by
  cases targetGender <;> exact ⟨by decide, by decide, by decide⟩

/-- Claim C3: compatibility holds iff both directional `wouldAcceptGender`
checks pass, and is therefore symmetric: pairing an existing ticket `t1`
with the holder of `t2` gives the same verdict as pairing `t2` with the
holder of `t1`. -/
theorem isCompatibleMatch_symm (t1 t2 : MatchingRequest) :
    (isCompatibleMatch t1 t2.userGender t2.preferredGender t2.isPremium = true ↔
       wouldAcceptGender t1.preferredGender t1.isPremium t2.userGender = true ∧
       wouldAcceptGender t2.preferredGender t2.isPremium t1.userGender = true)
    ∧ isCompatibleMatch t1 t2.userGender t2.preferredGender t2.isPremium
        = isCompatibleMatch t2 t1.userGender t1.preferredGender t1.isPremium := by
  constructor
  · simp [isCompatibleMatch, Bool.and_eq_true]
  · simp [isCompatibleMatch, Bool.and_comm]

/-- Claim C6: `findExistingMatch` returns the first mutually compatible
entry of the candidate list, where the candidates are exactly the `waiting`
tickets of the searched call type, in ascending `createdAt` order, capped
at the first 10; `none` when no candidate is compatible. -/
theorem findExistingMatch_spec (db : List MatchingRequest) (userGender : Gender)
    (preferredGender : GenderPref) (isPremium : Bool) (callType : CallType) :
    findExistingMatch db userGender preferredGender isPremium callType
      = (matchQueryDocs db callType).find?
          (fun r => isCompatibleMatch r userGender preferredGender isPremium)
    ∧ (matchQueryDocs db callType).length ≤ 10
    ∧ List.Sorted createdAtLE (matchQueryDocs db callType)
    ∧ ∀ r ∈ matchQueryDocs db callType,
        r ∈ db ∧ r.status = TicketStatus.waiting ∧ r.callType = callType := by
  refine ⟨findFirstCompatible_eq_find? userGender preferredGender isPremium _,
          List.length_take_le _ _,
          List.Pairwise.sublist (List.take_sublist _ _) (List.sorted_insertionSort createdAtLE _),
          ?_⟩
  intro r hr
  have h1 : r ∈ (db.filter
      (fun q => q.status == TicketStatus.waiting && q.callType == callType)).insertionSort
      createdAtLE := List.mem_of_mem_take hr
  have h2 := (List.mem_insertionSort createdAtLE).mp h1
  have h3 := List.mem_filter.mp h2
  refine ⟨h3.1, ?_, ?_⟩
  · have := (Bool.and_eq_true _ _).mp h3.2
    exact beq_iff_eq.mp this.1
  · have := (Bool.and_eq_true _ _).mp h3.2
    exact beq_iff_eq.mp this.2

def ticketC6a : MatchingRequest :=
  ⟨"t2", "u2", Gender.male, GenderPref.women, true, CallType.video,
   TicketStatus.waiting, 5, none, none⟩

def ticketC6b : MatchingRequest :=
  ⟨"t3", "u3", Gender.female, GenderPref.anyone, false, CallType.video,
   TicketStatus.waiting, 3, none, none⟩

def dbC6 : List MatchingRequest := [ticketC6a, ticketC6b]

theorem findExistingMatch_spec_witness :
    ticketC6b ∈ matchQueryDocs dbC6 CallType.video
    ∧ (ticketC6b ∈ dbC6 ∧ ticketC6b.status = TicketStatus.waiting
        ∧ ticketC6b.callType = CallType.video) :=
  ⟨by decide,
   (findExistingMatch_spec dbC6 Gender.female GenderPref.anyone false CallType.video).2.2.2
     ticketC6b (by decide)⟩

/-- Claim C8: `cleanupOldRequests` removes exactly the `waiting` tickets
strictly older than five minutes; younger tickets and non-waiting tickets
of any age survive unchanged. -/
theorem cleanupOldRequests_mem (db : List MatchingRequest) (now : Int) (t : MatchingRequest) :
    t ∈ cleanupOldRequests db now
      ↔ t ∈ db ∧ ¬(t.status = TicketStatus.waiting ∧ t.createdAt < now - fiveMinutesMs) := by
  simp only [cleanupOldRequests, List.mem_filter, Bool.not_eq_true', Bool.and_eq_false_iff,
    decide_eq_false_iff_not, beq_eq_false_iff_ne, ne_eq]
  tauto

/-- Claim C10: the call record created by `joinMatch` carries the joiner's
id as both `callerId` and `receiverId`, and its `callType` is the literal
`'video'`, whatever the matched ticket's call type was. -/
theorem joinMatch_creates_self_video_call (st : MatchState) (matchingRequestId userId : String) :
    ∃ c : CallRecord,
      (joinMatch st matchingRequestId userId).calls = st.calls ++ [c]
      ∧ c.callerId = userId
      ∧ c.receiverId = some userId
      ∧ c.callType = CallType.video
      ∧ c.id = freshDocId st.nextDocId :=
  ⟨{ id := freshDocId st.nextDocId, callerId := userId, receiverId := some userId,
     status := CallStatus.connecting, createdAt := st.now, callType := CallType.video },
   rfl, rfl, rfl, rfl, rfl⟩

/-- Claim C1: `verify_payment` succeeds only when the supplied signature
equals the lowercase-hex HMAC-SHA256 of `order_id|payment_id` under the
server secret; whenever the supplied signature differs from that HMAC the
request is rejected with the invalid-signature error. -/
theorem verify_payment_requires_hmac (st : OrderState) (p : VerifyPaymentPayload)
    (secret : String)
    (hsig : p.razorpay_signature
      ≠ hmacSha256Hex secret (p.razorpay_order_id ++ "|" ++ p.razorpay_payment_id)) :
    (verify_payment st p secret).1 = Except.error "Invalid payment signature" := by
  have h : hmacSha256Hex secret (p.razorpay_order_id ++ "|" ++ p.razorpay_payment_id)
      ≠ p.razorpay_signature := Ne.symm hsig
  simp [verify_payment, h]

set_option maxRecDepth 100000 in
theorem verify_payment_requires_hmac_witness :
    (verify_payment ⟨[]⟩ ⟨"order_A1", "pay_B2", "deadbeef", "u1"⟩ "topsecret").1
      = Except.error "Invalid payment signature" :=
  verify_payment_requires_hmac ⟨[]⟩ ⟨"order_A1", "pay_B2", "deadbeef", "u1"⟩ "topsecret"
    (by decide)

/-- Claim C2: on a signature mismatch `verify_payment` fails closed with
the invalid-signature error and returns the store untouched; the update to
`paid` lives in the branch only reached when the comparison succeeds. -/
theorem verify_payment_mismatch_no_mutation (st : OrderState) (p : VerifyPaymentPayload)
    (secret : String)
    (hsig : p.razorpay_signature
      ≠ hmacSha256Hex secret (p.razorpay_order_id ++ "|" ++ p.razorpay_payment_id)) :
    verify_payment st p secret = (Except.error "Invalid payment signature", st) := by
  have h : hmacSha256Hex secret (p.razorpay_order_id ++ "|" ++ p.razorpay_payment_id)
      ≠ p.razorpay_signature := Ne.symm hsig
  simp [verify_payment, h]

def orderRowW : OrderRow :=
  ⟨"u7", "order_X", 500, "INR", "created", "coins", "coins_100", none, none⟩

set_option maxRecDepth 100000 in
theorem verify_payment_mismatch_no_mutation_witness :
    verify_payment ⟨[orderRowW]⟩ ⟨"order_X", "pay_Y", "forged", "u7"⟩ "hushhush"
      = (Except.error "Invalid payment signature", ⟨[orderRowW]⟩) :=
  verify_payment_mismatch_no_mutation ⟨[orderRowW]⟩ ⟨"order_X", "pay_Y", "forged", "u7"⟩
    "hushhush" (by decide)

/-- Claim C9: on the success path, `create_order` sends `amount * 100` to
the gateway, stores a local row with status `created` holding the original
amount, and answers with the gateway order id, the fixed key id and
`success = true`. -/
theorem create_order_success (st : OrderState) (p : CreateOrderPayload)
    (gateway : GatewayOrderRequest → Option GatewayOrder) (now : Int) (gw : GatewayOrder)
    (hgw : gateway (gatewayOrderRequest p now) = some gw) :
    (gatewayOrderRequest p now).amount = p.amount * 100
    ∧ create_order st p gateway true now
        = (Except.ok (createOrderResponse gw), ⟨st.orders ++ [localOrderRow p gw]⟩)
    ∧ (localOrderRow p gw).status = "created"
    ∧ (localOrderRow p gw).amount = p.amount
    ∧ (createOrderResponse gw).success = true
    ∧ (createOrderResponse gw).order_id = gw.id
    ∧ (createOrderResponse gw).key_id = "rzp_test_WQBAQbslF30m1w" := by
  refine ⟨rfl, ?_, rfl, rfl, rfl, rfl, rfl⟩
  simp [create_order, hgw]

def payloadC9 : CreateOrderPayload := ⟨1000, some "INR", "coins", "coins_pack", "u1"⟩

def gatewayC9 : GatewayOrderRequest → Option GatewayOrder :=
  fun _ => some ⟨"order_abc", 100000, "INR"⟩

theorem create_order_success_witness :
    (create_order ⟨[]⟩ payloadC9 gatewayC9 true 7).1
      = Except.ok ⟨true, "order_abc", 100000, "INR", "rzp_test_WQBAQbslF30m1w"⟩ := by
  have h := create_order_success ⟨[]⟩ payloadC9 gatewayC9 7 ⟨"order_abc", 100000, "INR"⟩ rfl
  rw [h.2.1]
  rfl

def ticketC7 : MatchingRequest :=
  ⟨"t1", "u1", Gender.female, GenderPref.anyone, false, CallType.video,
   TicketStatus.waiting, 0, none, none⟩

def stateC7 : MatchState := ⟨[ticketC7], [], 0, 100⟩

/-- Claim C7 counterexample: user u2 joins the waiting ticket t1; the join
creates the call record doc_0, yet `startMatching` returns "t1" — the
ticket id from the pre-join snapshot — and not the new call's id. -/
theorem startMatching_returns_ticket_id :
    ((startMatching stateC7 "u2" Gender.male GenderPref.anyone false CallType.video).1.calls.map
        CallRecord.id) = ["doc_0"]
    ∧ (startMatching stateC7 "u2" Gender.male GenderPref.anyone false CallType.video).2 = "t1"
    ∧ ("t1" : String) ≠ "doc_0" :=
  ⟨by decide, by decide, by decide⟩

/-- Claim C7 (amended): when a compatible waiting ticket is found, the join
path creates a new call record (id `freshDocId`, caller and receiver the
joiner, type video), rewrites the ticket to `matched` with `matchedWith`
the joiner and `callId` the new call record's id — but `startMatching`
returns the snapshot's `callId || id`, i.e. the existing ticket's id for a
waiting ticket, not the id of the newly created call record. -/
theorem startMatching_join_path (st : MatchState) (userId : String) (userGender : Gender)
    (preferredGender : GenderPref) (isPremium : Bool) (callType : CallType)
    (r : MatchingRequest)
    (hfind : findExistingMatch st.tickets userGender preferredGender isPremium callType
      = some r) :
    (startMatching st userId userGender preferredGender isPremium callType).2
        = jsOrElse r.callId r.id
    ∧ (startMatching st userId userGender preferredGender isPremium callType).1.calls
        = st.calls ++
          [{ id := freshDocId st.nextDocId, callerId := userId, receiverId := some userId,
             status := CallStatus.connecting, createdAt := st.now,
             callType := CallType.video }]
    ∧ (startMatching st userId userGender preferredGender isPremium callType).1.tickets
        = st.tickets.map (fun t =>
            if t.id == r.id then
              { t with
                status := TicketStatus.matched
                matchedWith := some userId
                callId := some (freshDocId st.nextDocId) }
            else t) := by
  unfold startMatching
  rw [hfind]
  exact ⟨rfl, rfl, rfl⟩

theorem startMatching_join_path_witness :
    (startMatching stateC7 "u9" Gender.other GenderPref.anyone false CallType.video).2
      = jsOrElse ticketC7.callId ticketC7.id :=
  (startMatching_join_path stateC7 "u9" Gender.other GenderPref.anyone false CallType.video
    ticketC7 (by decide)).1
